import Mathlib

/-!
Verification of the Curtain-Lights repository's core components against its
natural-language specification.

The Python source is shallowly embedded:
* `get_celebration_pattern` mirrors
  `PaymentInterruptManager._get_celebration_pattern` (src/app/payment_interrupts.py),
  with payment amounts modelled as rationals.
* `check_subscriber_milestone_core` mirrors the milestone logic of
  `YouTubeMonitor.check_subscriber_milestone` (src/app/youtube.py), and
  `check_for_new_subscribers_core` the count-update logic of
  `YouTubeMonitor.check_for_new_subscribers`.
* `wait_if_needed` mirrors `RateLimiter.wait_if_needed` (src/app/govee.py) in a
  discrete-time model: timestamps are rationals and `time.sleep` advances the
  clock by exactly the requested duration.
* `test_device_connection_result`, `get_current_light_state_result` and
  `trigger_diy_scene_result` mirror the HTTP-response handling of
  `test_device_connection` (src/app/govee.py), `get_current_light_state` and
  `trigger_diy_scene` (src/app/main.py); the HTTP exchange itself is a
  parameter (`Except TransportErr ApiResponse`).
* The interrupt orchestrator (`PaymentInterruptManager`) is embedded as a
  cooperative-concurrency transition system `Sys`: each `await` in
  `_run_celebration` is a yield point, celebration bodies are compiled to
  instruction lists, `asyncio.Task.cancel` sets a flag that is observed at the
  task's next resumption (delivering the `CancelledError` handler, which runs
  `_restore_original_state`), and `trigger_payment_celebration` /
  `stop_current_interrupt` are folds over the exact statement order of the
  Python methods.
-/

/-! ## Celebration pattern selector (src/app/payment_interrupts.py lines 60-101) -/

/-- One entry of a celebration pattern's `patterns` list:
`{"color": [r,g,b], "brightness": b, "duration": d}`. -/
structure Step where
  color : Nat × Nat × Nat
  brightness : Nat
  hold : Nat
  deriving Repr, DecidableEq

/-- A celebration pattern dict: `{"name": …, "duration": …, "patterns": […]}`. -/
structure CelebrationPattern where
  name : String
  duration : Nat
  patterns : List Step
  deriving Repr, DecidableEq

/-- The `amount >= 100` pattern of `_get_celebration_pattern`. -/
def premium_celebration : CelebrationPattern :=
  { name := "💎 Premium Celebration", duration := 30,
    patterns := [⟨(255, 215, 0), 100, 2⟩, ⟨(138, 43, 226), 100, 2⟩,
                 ⟨(255, 255, 255), 100, 1⟩, ⟨(255, 215, 0), 100, 2⟩] }

/-- The `amount >= 50` pattern of `_get_celebration_pattern`. -/
def major_sale : CelebrationPattern :=
  { name := "🌟 Major Sale", duration := 20,
    patterns := [⟨(0, 255, 0), 100, 2⟩, ⟨(255, 255, 0), 100, 2⟩,
                 ⟨(255, 255, 255), 100, 1⟩] }

/-- The `amount >= 20` pattern of `_get_celebration_pattern`. -/
def standard_celebration : CelebrationPattern :=
  { name := "🎊 Standard Celebration", duration := 15,
    patterns := [⟨(0, 255, 0), 80, 3⟩, ⟨(255, 255, 255), 80, 1⟩] }

/-- The fallback (`else`) pattern of `_get_celebration_pattern`. -/
def mini_celebration : CelebrationPattern :=
  { name := "✨ Mini Celebration", duration := 10,
    patterns := [⟨(0, 255, 0), 60, 2⟩, ⟨(255, 255, 255), 60, 1⟩] }

/-- `PaymentInterruptManager._get_celebration_pattern`: the `if amount >= 100 /
elif amount >= 50 / elif amount >= 20 / else` chain. -/
def get_celebration_pattern (amount : ℚ) : CelebrationPattern :=
  if 100 ≤ amount then premium_celebration
  else if 50 ≤ amount then major_sale
  else if 20 ≤ amount then standard_celebration
  else mini_celebration

/-! ## YouTube milestone detection (src/app/youtube.py lines 117-173) -/

/-- The `milestones` threshold table of `check_subscriber_milestone`,
in source order (largest first, the loop breaks at the first match). -/
def milestones : List (Nat × Nat) :=
  [(1000000, 500), (500000, 200), (100000, 100), (50000, 75), (10000, 50),
   (5000, 25), (1000, 15), (500, 10), (100, 5)]

/-- The milestone computation of `YouTubeMonitor.check_subscriber_milestone`
as a function of `previous_count` (= `self.last_subscriber_count`) and the
freshly fetched `current_count`.  Returns
`some (milestone_reached, celebration_amount)` when `should_celebrate` would be
true, `none` otherwise.  The `for` loop with `break` is `List.find?`; the
"every 1000 subscribers after 10K" block overwrites the loop's result when its
condition holds, exactly as in the source. -/
def check_subscriber_milestone_core (previous_count current_count : Nat) :
    Option (Nat × Nat) :=
  let named := milestones.find? fun ta =>
    decide (ta.1 ≤ current_count) && decide (previous_count < ta.1)
  if 10000 ≤ current_count ∧ previous_count < current_count ∧
      previous_count / 1000 < current_count / 1000 then
    some (current_count / 1000 * 1000, 50)
  else
    named

/-- The state update and result of `YouTubeMonitor.check_for_new_subscribers`
after a successful stats fetch returning `current_count`: the stored
`last_subscriber_count` is overwritten with `current_count`, and
`new_subscribers = max(0, current - previous)`.  Returns
(new stored count, previous count, new_subscribers). -/
def check_for_new_subscribers_core (last_subscriber_count current_count : Nat) :
    Nat × Nat × Nat :=
  (current_count, last_subscriber_count, current_count - last_subscriber_count)

/-- One iteration of `check_subscriber_milestones_task` (src/app/youtube.py
lines 231-292) in which both `get_channel_stats` fetches succeed:
`check_for_new_subscribers` is awaited first (updating
`last_subscriber_count` to `fetch1`), then `check_subscriber_milestone` runs
against the updated count with the second fetch `fetch2`.  Returns the final
stored count and the milestone result. -/
def poll_iteration (last_subscriber_count fetch1 fetch2 : Nat) :
    Nat × Option (Nat × Nat) :=
  let r1 := check_for_new_subscribers_core last_subscriber_count fetch1
  let updated := r1.1
  (updated, check_subscriber_milestone_core updated fetch2)

/-- A subscriber count that the code can ever report as `milestone_reached`:
either a named threshold from the table, or a multiple of 1000 at or past the
10000 threshold (the "every 1000 subscribers after 10K" rule). -/
def is_milestone_threshold (t : Nat) : Prop :=
  (∃ a, (t, a) ∈ milestones) ∨ (∃ k, 10 ≤ k ∧ t = 1000 * k)

/-! ## Rate limiter (src/app/govee.py lines 14-38) -/

/-- `RateLimiter.__init__` state: the bound, the window length in seconds and
the recorded usage timestamps (append-ordered). -/
structure RateLimiter where
  max_requests : Nat
  time_window : ℚ
  requests : List ℚ
  deriving Repr, DecidableEq

/-- The list comprehension
`[t for t in self.requests if now - t < timedelta(seconds=self.time_window)]`. -/
def evict_old (time_window now : ℚ) (requests : List ℚ) : List ℚ :=
  requests.filter fun t => decide (now - t < time_window)

/-- `RateLimiter.wait_if_needed` in the discrete-time model: `now` is the call
time, `time.sleep(w)` advances the clock by exactly `w`, and the function
returns the updated limiter together with the time at which the call returns
(= the timestamp appended to `self.requests`). -/
def wait_if_needed (rl : RateLimiter) (now : ℚ) : RateLimiter × ℚ :=
  let reqs := evict_old rl.time_window now rl.requests
  if rl.max_requests ≤ reqs.length then
    let wait_time := rl.time_window - (now - reqs.headD 0)
    if 0 < wait_time then
      let woke := now + wait_time
      let reqs2 := evict_old rl.time_window woke reqs
      ({ rl with requests := reqs2 ++ [woke] }, woke)
    else
      ({ rl with requests := reqs ++ [now] }, now)
  else
    ({ rl with requests := reqs ++ [now] }, now)

/-- A sequence of back-to-back `wait_if_needed` calls: each call is issued at
the instant the previous one returned ("rapid" calls).  Returns the list of
return times, in call order. -/
def run_calls (rl : RateLimiter) (now : ℚ) : Nat → List ℚ
  | 0 => []
  | n + 1 =>
    let r := wait_if_needed rl now
    r.2 :: run_calls r.1 r.2 n

/-! ## Device client response handling -/

/-- A parsed vendor HTTP response: the transport status code and the `code`
field of the JSON body (`none` when the body has no `code` field). -/
structure ApiResponse where
  status_code : Nat
  body_code : Option Nat
  deriving Repr, DecidableEq

/-- A transport-level failure (timeout, connection error): the string of the
raised exception. -/
abbrev TransportErr : Type := String

/-- The success/failure result of `test_device_connection` (src/app/govee.py
lines 123-136) as a function of the HTTP outcome: `True` whenever
`response.status_code == 200`, `False` on any other status or on a raised
exception.  The body `code` field is not consulted. -/
def test_device_connection_result (r : Except TransportErr ApiResponse) : Bool :=
  match r with
  | .error _ => false
  | .ok resp => resp.status_code == 200

/-- The result of `get_current_light_state` (src/app/main.py lines 51-66):
the payload is returned only when the HTTP status is 200 and the body `code`
is 200; every other outcome (including HTTP 200 with a body error code, and
transport errors) yields `None`. -/
def get_current_light_state_result (r : Except TransportErr ApiResponse) :
    Option Unit :=
  match r with
  | .error _ => none
  | .ok resp =>
    if resp.status_code = 200 then
      if resp.body_code = some 200 then some () else none
    else none

/-- The result of the response handling in `trigger_diy_scene`
(src/app/main.py lines 212-234): success only for HTTP 200 with body code 200;
HTTP 200 with another body code raises `HTTPException(500, "Govee API error…")`,
a non-200 HTTP status raises `HTTPException(500, "HTTP error…")`, and a
transport error raises `HTTPException(500, "Network error…")`. -/
def trigger_diy_scene_result (r : Except TransportErr ApiResponse) :
    Except String Unit :=
  match r with
  | .error e => .error ("Network error: " ++ e)
  | .ok resp =>
    if resp.status_code = 200 then
      if resp.body_code = some 200 then .ok ()
      else .error "Govee API error"
    else .error "HTTP error"

/-! ## Interrupt orchestrator (src/app/payment_interrupts.py)

`PaymentInterruptManager` runs under asyncio's single-threaded cooperative
scheduler.  The embedding compiles `_run_celebration` into a list of atomic
instructions separated by `await` points, and represents each `asyncio.Task`
as a record carrying its remaining body, its cancellation flag and (once the
`except asyncio.CancelledError` handler has been entered) its remaining
restoration commands.  A scheduler action resumes one task at one `await`
boundary; `Task.cancel` only sets the flag, which the task observes at its
next resumption — exactly asyncio's cooperative-cancellation contract. -/

/-- One device command or sleep issued by the orchestrator; each is separated
from the next by an `await`. -/
inductive Instr where
  | device_cmd (device : String) ( turn_on : Bool) (brightness : Nat)
      (color : Nat × Nat × Nat)
  | sleep (hold : Nat)
  deriving Repr, DecidableEq

/-- The observable state of one device as parsed by `_restore_original_state`:
each field read with a `.get(…, default)`. -/
structure DevState where
  powerState : Option String
  brightness : Option Nat
  color_rgb : Option (Nat × Nat × Nat)
  deriving Repr, DecidableEq

/-- `self.original_state["device_states"]`: the snapshot captured by
`_save_current_state`, one optional state per device id. -/
structure SavedState where
  device_states : List (String × Option DevState)
  deriving Repr, DecidableEq

/-- The device commands issued by `_restore_original_state` (lines 184-211):
nothing when `self.original_state` is `None`, otherwise one `control_device`
per device whose saved state is a dict, with the source's defaults
(`powerState` "on", `brightness` 100, `color.rgb` `[255,255,255]`). -/
def restore_commands (original_state : Option SavedState) : List Instr :=
  match original_state with
  | none => []
  | some s =>
    s.device_states.filterMap fun ds =>
      ds.2.map fun st =>
        Instr.device_cmd ds.1 (st.powerState.getD "on" == "on")
          (st.brightness.getD 100) (st.color_rgb.getD (255, 255, 255))

/-- One pass of the `for pattern in patterns` loop of `_run_celebration`
(lines 148-168) in the discrete-time model (`await asyncio.sleep(d)` advances
the clock by exactly `d`): emits the per-device `control_device` commands and
the sleep for each step, honouring both `if datetime.now() >= end_time: break`
checks, and returns the emitted instructions with the new clock value. -/
def run_steps (device_ids : List String) :
    List Step → Nat → Nat → List Instr × Nat
  | [], t, _ => ([], t)
  | p :: rest, t, endT =>
    if endT ≤ t then ([], t)
    else
      let cmds := device_ids.map fun d =>
        Instr.device_cmd d true p.brightness p.color
      let t2 := t + p.hold
      if endT ≤ t2 then (cmds ++ [Instr.sleep p.hold], t2)
      else
        let r := run_steps device_ids rest t2 endT
        (cmds ++ Instr.sleep p.hold :: r.1, r.2)

/-- The `while datetime.now() < end_time` loop of `_run_celebration`, with
fuel bounding the number of iterations (each iteration of the concrete
patterns advances the clock, so `duration + 1` fuel is exact for them). -/
def run_loop (device_ids : List String) (steps : List Step) :
    Nat → Nat → Nat → List Instr
  | 0, _, _ => []
  | fuel + 1, t, endT =>
    if t < endT then
      let r := run_steps device_ids steps t endT
      r.1 ++ run_loop device_ids steps fuel r.2 endT
    else []

/-- The full instruction body of `_run_celebration`'s `try` block for a given
pattern and device list: empty when no devices were found (the early
`return`). -/
def run_celebration_program (pat : CelebrationPattern)
    (device_ids : List String) : List Instr :=
  if device_ids.isEmpty then []
  else run_loop device_ids pat.patterns (pat.duration + 1) 0 pat.duration

/-- Whether a trace event was emitted by a task's celebration body or by its
restoration (`_restore_original_state`) phase. -/
inductive Phase where
  | body
  | restore
  deriving Repr, DecidableEq

/-- One observable event: the issuing task (`none` for commands issued
directly by `stop_current_interrupt`'s own `await`), its phase, and the
instruction. -/
structure Ev where
  origin : Option Nat
  phase : Phase
  instr : Instr
  deriving Repr, DecidableEq

/-- One `asyncio.Task` created by `trigger_payment_celebration`:
`program` is the remaining body, `restoring = some l` means the task is inside
`_restore_original_state` with commands `l` still to issue, `restore_on_done`
records whether a normal completion runs restoration (false exactly for the
early `return` when no devices were found). -/
structure ATask where
  tid : Nat
  program : List Instr
  restoring : Option (List Instr)
  restore_on_done : Bool
  cancelled : Bool
  done : Bool
  deriving Repr, DecidableEq

/-- `self.current_interrupt`: the payment amount and selected pattern of the
session record (the other dict fields do not affect control flow). -/
structure Interrupt where
  amount : ℚ
  pattern : CelebrationPattern
  deriving Repr, DecidableEq

/-- The mutable fields of `PaymentInterruptManager`. -/
structure Manager where
  current_interrupt : Option Interrupt
  original_state : Option SavedState
  interrupt_task : Option Nat
  deriving Repr, DecidableEq

/-- The whole cooperative system: manager state, live tasks, the trace of
issued instructions and a fresh task-id counter. -/
structure Sys where
  mgr : Manager
  tasks : List ATask
  trace : List Ev
  next_id : Nat
  deriving Repr, DecidableEq

/-- The manager of a fresh `PaymentInterruptManager()` with no tasks. -/
def Sys.init : Sys := ⟨⟨none, none, none⟩, [], [], 0⟩

/-- Resume task `t` at its pending `await` with the manager's current
`original_state` in scope.  Returns the updated task, the event it emits (if
any) and whether its `finally` clause ran at this step (clearing
`self.current_interrupt`).  A pending cancellation is delivered first; the
`except asyncio.CancelledError` handler enters `_restore_original_state`,
whose command list is computed from the shared `original_state` at that
moment. -/
def task_step (t : ATask) (original_state : Option SavedState) :
    ATask × Option Ev × Bool :=
  match t.restoring with
  | none =>
    if t.cancelled then
      ({ t with restoring := some (restore_commands original_state) },
        none, false)
    else
      match t.program with
      | i :: rest =>
        ({ t with program := rest }, some ⟨some t.tid, Phase.body, i⟩, false)
      | [] =>
        if t.restore_on_done then
          ({ t with restoring := some (restore_commands original_state) },
            none, false)
        else ({ t with done := true }, none, true)
  | some (i :: rest) =>
    ({ t with restoring := some rest },
      some ⟨some t.tid, Phase.restore, i⟩, false)
  | some [] => ({ t with done := true }, none, true)

/-- One scheduler step: resume the (unique) live task with id `tid`; a
missing or finished task makes the step a no-op. -/
def step_task (s : Sys) (tid : Nat) : Sys :=
  match s.tasks.find? fun t => t.tid == tid with
  | none => s
  | some t =>
    if t.done then s
    else
      let r := task_step t s.mgr.original_state
      { s with
        tasks := s.tasks.map fun u => if u.tid == tid then r.1 else u,
        trace := s.trace ++ r.2.1.toList,
        mgr := if r.2.2 then { s.mgr with current_interrupt := none }
               else s.mgr }

/-- Set the cancellation flag of the task with id `tid`
(`asyncio.Task.cancel`): delivery is deferred to the task's next resumption. -/
def cancel_task (s : Sys) (tid : Nat) : Sys :=
  { s with tasks := s.tasks.map fun u =>
      if u.tid == tid then { u with cancelled := true } else u }

/-- The statements of `trigger_payment_celebration` (lines 27-51), in source
order: save the current state, cancel any existing interrupt task, store the
new session record, create the celebration task. -/
inductive TriggerStep where
  | save_state
  | cancel_existing
  | set_interrupt
  | start_task
  deriving Repr, DecidableEq

/-- The statement order of `trigger_payment_celebration`: the snapshot is
taken first (line 30), an existing task is cancelled afterwards (lines 33-34),
then the session record is stored (line 40) and the new task started
(line 49). -/
def trigger_program : List TriggerStep :=
  [TriggerStep.save_state, TriggerStep.cancel_existing,
   TriggerStep.set_interrupt, TriggerStep.start_task]

/-- Execute one statement of `trigger_payment_celebration`.  `snapshot` is the
outcome of `_save_current_state` (`none` when every fetch failed or raised:
the method catches all exceptions and sets `self.original_state = None`);
`device_ids` is what `get_devices` will return inside the task. -/
def exec_trigger_step (amount : ℚ) (snapshot : Option SavedState)
    (device_ids : List String) (s : Sys) : TriggerStep → Sys
  | .save_state => { s with mgr := { s.mgr with original_state := snapshot } }
  | .cancel_existing =>
    match s.mgr.interrupt_task with
    | some tid => cancel_task s tid
    | none => s
  | .set_interrupt =>
    { s with mgr := { s.mgr with
        current_interrupt := some ⟨amount, get_celebration_pattern amount⟩ } }
  | .start_task =>
    { s with
      tasks := s.tasks ++
        [⟨s.next_id,
          run_celebration_program (get_celebration_pattern amount) device_ids,
          none, !device_ids.isEmpty, false, false⟩],
      mgr := { s.mgr with interrupt_task := some s.next_id },
      next_id := s.next_id + 1 }

/-- `trigger_payment_celebration` as the fold of its statements.  The method
itself never raises: `_save_current_state` swallows every exception, and the
return value `{"status": "celebration_started", …}` is produced
unconditionally. -/
def trigger_payment_celebration (s : Sys) (amount : ℚ)
    (snapshot : Option SavedState) (device_ids : List String) : Sys :=
  trigger_program.foldl (exec_trigger_step amount snapshot device_ids) s

/-- `stop_current_interrupt` (lines 224-232): when `self.interrupt_task` holds
any task handle — even a finished one, the field is never reset — the task is
cancelled, `_restore_original_state` is awaited inline (emitting its commands
with no task origin), `self.current_interrupt` is cleared, and
`"interrupt_stopped"` is returned; only when no task was ever stored does it
report `"no_interrupt_active"`. -/
def stop_current_interrupt (s : Sys) : String × Sys :=
  match s.mgr.interrupt_task with
  | some tid =>
    let s1 := cancel_task s tid
    ("interrupt_stopped",
      { s1 with
        trace := s1.trace ++ (restore_commands s1.mgr.original_state).map
          fun i => ⟨none, Phase.restore, i⟩,
        mgr := { s1.mgr with current_interrupt := none } })
  | none => ("no_interrupt_active", s)

/-- `get_current_interrupt` (lines 213-222) returns `None` exactly when
`self.current_interrupt` is `None`. -/
def get_current_interrupt (s : Sys) : Option Interrupt :=
  s.mgr.current_interrupt

/-- A schedulable action: resume a task, call
`trigger_payment_celebration`, or call `stop_current_interrupt`. -/
inductive Act where
  | step (tid : Nat)
  | trigger (amount : ℚ) (snapshot : Option SavedState)
      (device_ids : List String)
  | stop
  deriving Repr

/-- Execute one action. -/
def exec_act (s : Sys) : Act → Sys
  | .step tid => step_task s tid
  | .trigger amount snapshot device_ids =>
    trigger_payment_celebration s amount snapshot device_ids
  | .stop => (stop_current_interrupt s).2

/-- Run a whole schedule. -/
def run (s : Sys) : List Act → Sys
  | [] => s
  | a :: rest => run (exec_act s a) rest

/-- Resume task `tid` repeatedly `n` times. -/
def drive (s : Sys) (tid : Nat) : Nat → Sys
  | 0 => s
  | n + 1 => drive (step_task s tid) tid n

/-- `true` when the trace contains a device command of task `a` occurring
strictly after some device command of task `b` — the observable violation of
"no further device commands from the superseded task once the new sequence
starts". -/
def cmd_of_after_cmd_of (a b : Nat) : List Ev → Bool → Bool
  | [], _ => false
  | e :: rest, seen_b =>
    let is_dev := match e.instr with
      | Instr.device_cmd _ _ _ _ => true
      | Instr.sleep _ => false
    if seen_b && is_dev && e.origin == some a then true
    else cmd_of_after_cmd_of a b rest (seen_b || (is_dev && e.origin == some b))

/-- Task `a` exists only in cancelled form in `s` (and `a` is not a fresh id,
so no later-created task can reuse it). -/
def cancelled_at (s : Sys) (a : Nat) : Prop :=
  a < s.next_id ∧ ∀ t ∈ s.tasks, t.tid = a → t.cancelled = true

/-! ## Theorems: pattern selector -/

/-- C3.  Tier determinism of the pattern selector: inclusive lower bounds with
the highest matching tier winning — `amount ≥ 100` gives the Premium pattern
(30s, 4 steps), `50 ≤ amount < 100` Major (20s, 3 steps), `20 ≤ amount < 50`
Standard (15s, 2 steps), `amount < 20` Mini (10s, 2 steps); for amounts
0, 19.99, 20, 49.99, 50, 99.99, 100, 500 the selected patterns are
Mini, Mini, Standard, Standard, Major, Major, Premium, Premium, and the
selection is a pure function of the amount. -/
theorem tier_determinism :
    (∀ a : ℚ, 100 ≤ a → get_celebration_pattern a = premium_celebration) ∧
    (∀ a : ℚ, 50 ≤ a → a < 100 → get_celebration_pattern a = major_sale) ∧
    (∀ a : ℚ, 20 ≤ a → a < 50 → get_celebration_pattern a = standard_celebration) ∧
    (∀ a : ℚ, a < 20 → get_celebration_pattern a = mini_celebration) ∧
    premium_celebration.duration = 30 ∧ premium_celebration.patterns.length = 4 ∧
    major_sale.duration = 20 ∧ major_sale.patterns.length = 3 ∧
    standard_celebration.duration = 15 ∧ standard_celebration.patterns.length = 2 ∧
    mini_celebration.duration = 10 ∧ mini_celebration.patterns.length = 2 ∧
    get_celebration_pattern 0 = mini_celebration ∧
    get_celebration_pattern (1999 / 100) = mini_celebration ∧
    get_celebration_pattern 20 = standard_celebration ∧
    get_celebration_pattern (4999 / 100) = standard_celebration ∧
    get_celebration_pattern 50 = major_sale ∧
    get_celebration_pattern (9999 / 100) = major_sale ∧
    get_celebration_pattern 100 = premium_celebration ∧
    get_celebration_pattern 500 = premium_celebration := by
  refine ⟨?_, ?_, ?_, ?_, ?_⟩
  · intro a h
    simp [get_celebration_pattern, h]
  · intro a h1 h2
    rw [get_celebration_pattern, if_neg (by linarith), if_pos h1]
  · intro a h1 h2
    rw [get_celebration_pattern, if_neg (by linarith), if_neg (by linarith),
      if_pos h1]
  · intro a h
    rw [get_celebration_pattern, if_neg (by linarith), if_neg (by linarith),
      if_neg (by linarith)]
  · refine ⟨rfl, rfl, rfl, rfl, rfl, rfl, rfl, rfl,
      ?_, ?_, ?_, ?_, ?_, ?_, ?_, ?_⟩ <;> norm_num [get_celebration_pattern]

/-- Witness for `tier_determinism`: instantiating the tier bounds at concrete
amounts. -/
theorem tier_determinism_witness :
    get_celebration_pattern 150 = premium_celebration ∧
    get_celebration_pattern 75 = major_sale := by
  exact ⟨tier_determinism.1 150 (by norm_num),
    tier_determinism.2.1 75 (by norm_num) (by norm_num)⟩

/-! ## Theorems: milestone detection -/

/-- C4.  Edge-triggered milestone detection: any reported milestone `t`
satisfies `previous < t ≤ current`; a milestone is reported exactly when some
eligible threshold (a named table entry, or a multiple of 1000 at/past 10000)
is crossed this way; at most one milestone is reported per call (the result is
a single optional pair); and previous=950, current=1000 fires at 1000 ($15),
previous=1000, current=1050 fires nothing, previous=10500, current=11500 fires
exactly once, at 11000 ($50). -/
theorem milestone_edge_triggered :
    (∀ p c t a, check_subscriber_milestone_core p c = some (t, a) →
        p < t ∧ t ≤ c) ∧
    (∀ p c, (check_subscriber_milestone_core p c).isSome ↔
        ∃ t, is_milestone_threshold t ∧ p < t ∧ t ≤ c) ∧
    check_subscriber_milestone_core 950 1000 = some (1000, 15) ∧
    check_subscriber_milestone_core 1000 1050 = none ∧
    check_subscriber_milestone_core 10500 11500 = some (11000, 50) := by
  have hdiv : ∀ p c : Nat, p / 1000 < c / 1000 → p < c / 1000 * 1000 := by
    intro p c h
    by_contra hle
    push_neg at hle
    exact absurd ((Nat.le_div_iff_mul_le (by norm_num)).2 hle) (Nat.not_le.2 h)
  refine ⟨?_, ?_, by decide, by decide, by decide⟩
  · intro p c t a h
    rw [check_subscriber_milestone_core] at h
    split at h
    · rename_i hcond
      obtain ⟨h1, h2, h3⟩ := hcond
      obtain ⟨rfl, rfl⟩ : c / 1000 * 1000 = t ∧ 50 = a := by
        simpa using h
      exact ⟨hdiv p c h3, Nat.div_mul_le_self c 1000⟩
    · have := List.find?_some h
      simp only [Bool.and_eq_true, decide_eq_true_eq] at this
      exact ⟨this.2, this.1⟩
  · intro p c
    constructor
    · intro h
      rw [check_subscriber_milestone_core] at h
      split at h
      · rename_i hcond
        obtain ⟨h1, h2, h3⟩ := hcond
        refine ⟨c / 1000 * 1000, Or.inr ⟨c / 1000, ?_, (Nat.mul_comm _ _)⟩,
          hdiv p c h3, Nat.div_mul_le_self c 1000⟩
        exact (Nat.le_div_iff_mul_le (by norm_num)).2 (by omega)
      · obtain ⟨⟨t, a⟩, hfind⟩ := Option.isSome_iff_exists.1 h
        have hmem := List.mem_of_find?_eq_some hfind
        have hpred := List.find?_some hfind
        simp only [Bool.and_eq_true, decide_eq_true_eq] at hpred
        exact ⟨t, Or.inl ⟨a, hmem⟩, hpred.2, hpred.1⟩
    · rintro ⟨t, hthr, hp, hc⟩
      rw [check_subscriber_milestone_core]
      split
      · simp
      · rename_i hcond
        rcases hthr with ⟨a, hmem⟩ | ⟨k, hk, rfl⟩
        · rw [List.find?_isSome]
          exact ⟨(t, a), hmem, by simp [hc, hp]⟩
        · refine absurd ⟨by omega, by omega, ?_⟩ hcond
          have h1 : p / 1000 < k :=
            (Nat.div_lt_iff_lt_mul (by norm_num)).2 (by omega)
          have h2 : k ≤ c / 1000 :=
            (Nat.le_div_iff_mul_le (by norm_num)).2 (by omega)
          omega

/-- Witness for `milestone_edge_triggered`: the 950→1000 crossing instantiates
the edge-trigger bound and the existence direction. -/
theorem milestone_edge_triggered_witness :
    (950 < 1000 ∧ 1000 ≤ 1000) ∧
    (check_subscriber_milestone_core 950 1000).isSome := by
  exact ⟨milestone_edge_triggered.1 950 1000 1000 15 (by decide),
    (milestone_edge_triggered.2.1 950 1000).2
      ⟨1000, Or.inl ⟨15, by decide⟩, by decide, by decide⟩⟩

/-- C5, counterexample.  The crossing previous=49999 → current=50000 of the
named 50000 threshold (whose table amount is 75) produces a $50 celebration,
because the "every 1000 subscribers after 10K" block overwrites the named
result; so a named-threshold crossing does not always yield the table value. -/
theorem milestone_amount_cex :
    check_subscriber_milestone_core 49999 50000 = some (50000, 50) ∧
    (50000, 75) ∈ milestones ∧
    49999 < 50000 ∧ 50000 ≤ 50000 ∧ (50 : Nat) ≠ 75 := by
  exact ⟨by decide, by decide, by decide, by decide, by decide⟩

/-- C5, amended.  Every crossing of a 1000-subscriber boundary at or past the
10000 threshold yields a $50 celebration — including crossings of the named
thresholds 50000, 100000, 500000, 1000000, whose table amounts are thereby
overridden to $50; in every other case the reported (threshold, amount) pair
comes verbatim from the fixed table, so any reported amount is either a table
value paired with its own threshold or the $50 override. -/
theorem milestone_amount_amended :
    ∀ p c : Nat,
      ((∃ k, 10 ≤ k ∧ p < 1000 * k ∧ 1000 * k ≤ c) →
          check_subscriber_milestone_core p c = some (c / 1000 * 1000, 50)) ∧
      (∀ t a, check_subscriber_milestone_core p c = some (t, a) →
          (t, a) ∈ milestones ∨ a = 50) := by
  intro p c
  constructor
  · rintro ⟨k, hk, hp, hc⟩
    rw [check_subscriber_milestone_core]
    rw [if_pos]
    refine ⟨by omega, by omega, ?_⟩
    have h1 : p / 1000 < k := (Nat.div_lt_iff_lt_mul (by norm_num)).2 (by omega)
    have h2 : k ≤ c / 1000 := (Nat.le_div_iff_mul_le (by norm_num)).2 (by omega)
    omega
  · intro t a h
    rw [check_subscriber_milestone_core] at h
    split at h
    · simp only [Option.some.injEq, Prod.mk.injEq] at h
      exact Or.inr h.2.symm
    · exact Or.inl (List.mem_of_find?_eq_some h)

/-- Witness for `milestone_amount_amended`: the 10500 → 11500 crossing of the
11000 boundary yields the $50 celebration. -/
theorem milestone_amount_amended_witness :
    check_subscriber_milestone_core 10500 11500 = some (11500 / 1000 * 1000, 50) :=
  (milestone_amount_amended 10500 11500).1 ⟨11, by decide, by decide, by decide⟩

/-! ## Theorems: polling loop (C10) -/

/-- C10.  `check_for_new_subscribers` overwrites the stored
`last_subscriber_count` with the freshly fetched count, and the background
loop awaits it before `check_subscriber_milestone`; hence whenever the two
consecutive fetches of one polling iteration return the same count `c`, the
milestone check runs with previous = current = `c` and reports no milestone —
for every starting stored count, including any from which a named threshold
was crossed since the previous iteration. -/
theorem same_fetch_no_milestone :
    ∀ (last c : Nat),
      (check_for_new_subscribers_core last c).1 = c ∧
      poll_iteration last c c = (c, none) := by
  intro last c
  refine ⟨rfl, ?_⟩
  rw [poll_iteration]
  rw [check_for_new_subscribers_core]
  show (c, check_subscriber_milestone_core c c) = (c, none)
  rw [check_subscriber_milestone_core]
  rw [if_neg (by omega)]
  rw [List.find?_eq_none.2]
  intro ta _
  simp only [Bool.and_eq_true, decide_eq_true_eq, not_and]
  omega

/-! ## Theorems: vendor body error codes (C7) -/

/-- C7, counterexample.  A device-control request through the v1 wrapper
`test_device_connection` whose HTTP response has status 200 but whose body
carries error code 500 is reported as success (`True`), not failure. -/
theorem vendor_body_code_cex :
    test_device_connection_result (Except.ok ⟨200, some 500⟩) = true ∧
    (ApiResponse.mk 200 (some 500)).status_code = 200 ∧
    (ApiResponse.mk 200 (some 500)).body_code ≠ some 200 := by
  exact ⟨rfl, rfl, by decide⟩

/-- C7, amended.  The newer-API paths do treat HTTP 200 with a body error
code as failure — `get_current_light_state` returns `None` and
`trigger_diy_scene` raises a 500 `HTTPException` — but the v1 control wrapper
`test_device_connection` (used by `set_color` / `set_brightness`) decides
success from the HTTP status alone, ignoring the body code. -/
theorem vendor_body_code_amended :
    ∀ r : ApiResponse, r.status_code = 200 → r.body_code ≠ some 200 →
      get_current_light_state_result (Except.ok r) = none ∧
      trigger_diy_scene_result (Except.ok r) = Except.error "Govee API error" ∧
      test_device_connection_result (Except.ok r) = true := by
  intro r h1 h2
  refine ⟨?_, ?_, ?_⟩
  · rw [get_current_light_state_result]
    rw [if_pos h1, if_neg h2]
  · rw [trigger_diy_scene_result]
    rw [if_pos h1, if_neg h2]
  · rw [test_device_connection_result]
    exact decide_eq_true h1

/-- Witness for `vendor_body_code_amended` at the concrete response
`status 200, body code 500`. -/
theorem vendor_body_code_amended_witness :
    get_current_light_state_result (Except.ok ⟨200, some 500⟩) = none ∧
    trigger_diy_scene_result (Except.ok ⟨200, some 500⟩) =
      Except.error "Govee API error" ∧
    test_device_connection_result (Except.ok ⟨200, some 500⟩) = true :=
  vendor_body_code_amended ⟨200, some 500⟩ rfl (by decide)

/-! ## Theorems: rate limiter (C6) -/

/-- Filtering with the same cutoff twice changes nothing: the second clean-up
pass of `wait_if_needed` at the same instant is idempotent. -/
lemma evict_old_idem (w t : ℚ) (l : List ℚ) :
    evict_old w t (evict_old w t l) = evict_old w t l := by
  induction l with
  | nil => rfl
  | cons x xs ih =>
    by_cases h : t - x < w <;> simp [evict_old, h] at ih ⊢

/-- C6.  The rate limiter never drops or rejects a call: every `acquire`
evicts entries older than the window, returns at some time `ret`, and records
exactly one usage entry, timestamped `ret`, after a second eviction pass at
`ret` (the re-check after waking).  When the window already holds
`max_requests` entries the return time is delayed to at least
`now + (time_window − (now − oldest))`, the remaining time of the oldest
entry.  With 15 back-to-back calls at limit 10 per 60s starting at time 0,
all 15 calls return, the first ten immediately, and the 11th delayed until
60 = 60s − (0s elapsed since the 1st call). -/
theorem rate_limiter_contract :
    (∀ (rl : RateLimiter) (now : ℚ),
        (wait_if_needed rl now).1.requests =
          evict_old rl.time_window (wait_if_needed rl now).2
            (evict_old rl.time_window now rl.requests) ++
            [(wait_if_needed rl now).2]) ∧
    (∀ (rl : RateLimiter) (now : ℚ),
        rl.max_requests ≤ (evict_old rl.time_window now rl.requests).length →
        now + (rl.time_window -
            (now - (evict_old rl.time_window now rl.requests).headD 0)) ≤
          (wait_if_needed rl now).2) ∧
    run_calls ⟨10, 60, []⟩ 0 15 =
      [0, 0, 0, 0, 0, 0, 0, 0, 0, 0, 60, 60, 60, 60, 60] ∧
    (run_calls ⟨10, 60, []⟩ 0 15).length = 15 := by
  have hsim : run_calls ⟨10, 60, []⟩ 0 15 =
      [0, 0, 0, 0, 0, 0, 0, 0, 0, 0, 60, 60, 60, 60, 60] := by
    norm_num [run_calls, wait_if_needed, evict_old]
  refine ⟨?_, ?_, hsim, by rw [hsim]; rfl⟩
  · intro rl now
    simp only [wait_if_needed]
    split_ifs with h1 h2
    · simp
    · simp [evict_old_idem]
    · simp [evict_old_idem]
  · intro rl now h
    simp only [wait_if_needed]
    rw [if_pos h]
    split_ifs with h2
    · simp
    · push_neg at h2
      simpa using h2

/-- Witness for `rate_limiter_contract`: a limiter with bound 1 whose window
holds one entry at time 0 delays a call at time 30 until at least time 60. -/
theorem rate_limiter_contract_witness :
    (30 : ℚ) + ((⟨1, 60, [0]⟩ : RateLimiter).time_window -
        ((30 : ℚ) - (evict_old (⟨1, 60, [0]⟩ : RateLimiter).time_window 30
          (⟨1, 60, [0]⟩ : RateLimiter).requests).headD 0)) ≤
      (wait_if_needed ⟨1, 60, [0]⟩ 30).2 :=
  rate_limiter_contract.2.1 ⟨1, 60, [0]⟩ 30 (by norm_num [evict_old])

/-! ## Theorems: interrupt orchestrator -/

/-- C2, counterexample.  In `trigger_payment_celebration` the in-flight task
is NOT cancelled before the snapshot: the statement order puts
`_save_current_state` (line 30) strictly before the cancellation (lines
33-34), so the claim "cancels first, only afterwards captures the snapshot"
fails on the code. -/
theorem trigger_order_cex :
    ¬ trigger_program.indexOf TriggerStep.cancel_existing <
        trigger_program.indexOf TriggerStep.save_state := by
  decide

/-- C2, amended.  `trigger_payment_celebration` first captures the
`DeviceState` snapshot and only afterwards cancels the in-flight celebration
task (and only then starts the new one); consequently the stored
`original_state` is whatever the snapshot taken before cancellation observed —
which can be the superseded celebration's colors. -/
theorem trigger_order_amended :
    trigger_program.indexOf TriggerStep.save_state <
        trigger_program.indexOf TriggerStep.cancel_existing ∧
    trigger_program.indexOf TriggerStep.cancel_existing <
        trigger_program.indexOf TriggerStep.start_task ∧
    (∀ (s : Sys) (amount : ℚ) (snap : Option SavedState) (ds : List String),
        (trigger_payment_celebration s amount snap ds).mgr.original_state =
          snap) := by
  refine ⟨by decide, by decide, ?_⟩
  intro s amount snap ds
  simp only [trigger_payment_celebration, trigger_program, List.foldl,
    exec_trigger_step]
  cases s.mgr.interrupt_task with
  | none => rfl
  | some tid => rfl

/-- C9, counterexample.  After a celebration completes, `interrupt_task`
still holds the finished task, so `stop_current_interrupt` does not report the
no-op: starting from a fresh manager, triggering a $5 celebration with one
device and a successful snapshot and running its task to completion (17
scheduler steps) reaches a state with no active session
(`current_interrupt = None`, the task `done`) — yet `stop()` there returns
`"interrupt_stopped"`, not `"no_interrupt_active"`, and issues a further
restore device command (the trace grows). -/
theorem stop_after_completion_cex :
    (get_current_interrupt (drive (trigger_payment_celebration Sys.init 5
        (some ⟨[("d1", some ⟨some "on", some 50, some (10, 20, 30)⟩)]⟩)
        ["d1"]) 0 17) = none) ∧
    ((drive (trigger_payment_celebration Sys.init 5
        (some ⟨[("d1", some ⟨some "on", some 50, some (10, 20, 30)⟩)]⟩)
        ["d1"]) 0 17).tasks.all fun t => t.done) = true ∧
    (stop_current_interrupt (drive (trigger_payment_celebration Sys.init 5
        (some ⟨[("d1", some ⟨some "on", some 50, some (10, 20, 30)⟩)]⟩)
        ["d1"]) 0 17)).1 = "interrupt_stopped" ∧
    (stop_current_interrupt (drive (trigger_payment_celebration Sys.init 5
        (some ⟨[("d1", some ⟨some "on", some 50, some (10, 20, 30)⟩)]⟩)
        ["d1"]) 0 17)).1 ≠ "no_interrupt_active" ∧
    (stop_current_interrupt (drive (trigger_payment_celebration Sys.init 5
        (some ⟨[("d1", some ⟨some "on", some 50, some (10, 20, 30)⟩)]⟩)
        ["d1"]) 0 17)).2.trace.length =
      (drive (trigger_payment_celebration Sys.init 5
        (some ⟨[("d1", some ⟨some "on", some 50, some (10, 20, 30)⟩)]⟩)
        ["d1"]) 0 17).trace.length + 1 := by
  refine ⟨by decide, by decide, by decide, by decide, by decide⟩

/-- C9, amended.  `stop()` is the idempotent no-op exactly in the states where
no celebration task was ever started (`interrupt_task` is `None`, e.g. a fresh
manager): there it returns `"no_interrupt_active"`, issues no device command,
leaves the whole state unchanged, and a second call returns the same no-op.
Once any celebration has run, `interrupt_task` keeps the finished handle and
`stop()` cancels/restores again instead of reporting the no-op. -/
theorem stop_noop_when_never_triggered :
    ∀ s : Sys, s.mgr.interrupt_task = none →
      stop_current_interrupt s = ("no_interrupt_active", s) ∧
      stop_current_interrupt (stop_current_interrupt s).2 =
        ("no_interrupt_active", s) := by
  intro s h
  have h1 : stop_current_interrupt s = ("no_interrupt_active", s) := by
    rw [stop_current_interrupt, h]
  exact ⟨h1, by rw [h1, h1]⟩

/-- Witness for `stop_noop_when_never_triggered` at the fresh manager. -/
theorem stop_noop_when_never_triggered_witness :
    stop_current_interrupt Sys.init = ("no_interrupt_active", Sys.init) ∧
    stop_current_interrupt (stop_current_interrupt Sys.init).2 =
      ("no_interrupt_active", Sys.init) :=
  stop_noop_when_never_triggered Sys.init rfl

/-- The concrete last-trigger-wins schedule: trigger A ($5, Mini pattern),
let A issue its first device command and start its first sleep, trigger B
($150, Premium pattern) — which snapshots, cancels A and starts task 1 — let
B issue its first device command, then resume A twice: A observes the
cancellation and runs `_restore_original_state`, issuing a further device
command. -/
def cex_schedule : List Act :=
  [Act.trigger 5 (some ⟨[("d1", some ⟨some "on", some 50, some (10, 20, 30)⟩)]⟩)
      ["d1"],
   Act.step 0, Act.step 0,
   Act.trigger 150 (some ⟨[("d1", some ⟨some "on", some 50, some (10, 20, 30)⟩)]⟩)
      ["d1"],
   Act.step 1, Act.step 0, Act.step 0]

/-- C1, counterexample.  Under `cex_schedule` the superseded task A (id 0)
issues a device command — the restoration command of its `CancelledError`
handler — strictly after task B (id 1) has already issued a device command of
its own sequence: `trigger(B)` does not wait for A's teardown, so device
commands from A's task occur after B's sequence starts, and A's restore
interleaves with B's celebration against the device. -/
theorem last_trigger_wins_cex :
    cmd_of_after_cmd_of 0 1 (run Sys.init cex_schedule).trace false = true ∧
    (run Sys.init cex_schedule).trace =
      [⟨some 0, Phase.body, Instr.device_cmd "d1" true 60 (0, 255, 0)⟩,
       ⟨some 0, Phase.body, Instr.sleep 2⟩,
       ⟨some 1, Phase.body, Instr.device_cmd "d1" true 100 (255, 215, 0)⟩,
       ⟨some 0, Phase.restore, Instr.device_cmd "d1" true 50 (10, 20, 30)⟩] := by
  exact ⟨by decide, by decide⟩

/-- Resuming a task never changes its id. -/
lemma task_step_tid (t : ATask) (o : Option SavedState) :
    (task_step t o).1.tid = t.tid := by
  unfold task_step
  repeat' split
  all_goals rfl

/-- Resuming a task never changes its cancellation flag. -/
lemma task_step_cancelled (t : ATask) (o : Option SavedState) :
    (task_step t o).1.cancelled = t.cancelled := by
  unfold task_step
  repeat' split
  all_goals rfl

/-- Every event a resumption emits carries the task's own id. -/
lemma task_step_origin (t : ATask) (o : Option SavedState) (e : Ev)
    (he : (task_step t o).2.1 = some e) : e.origin = some t.tid := by
  unfold task_step at he
  repeat' split at he
  all_goals simp_all
  all_goals (obtain rfl := he; rfl)

/-- A task whose cancellation flag is set can only ever emit restoration
events: the `CancelledError` handler is entered at its next resumption and
the remaining celebration body is never executed. -/
lemma task_step_cancelled_emit (t : ATask) (o : Option SavedState) (e : Ev)
    (hc : t.cancelled = true) (he : (task_step t o).2.1 = some e) :
    e.phase = Phase.restore := by
  unfold task_step at he
  rcases hres : t.restoring with _ | l
  · rw [hres, hc] at he
    simp at he
  · rcases l with _ | ⟨i, rest⟩ <;> rw [hres] at he <;> simp at he
    obtain rfl := he.symm
    rfl

/-- `Task.cancel` only sets flags: it keeps every already-cancelled task
cancelled, and changes neither the trace nor the id counter. -/
lemma cancel_task_preserves (s : Sys) (tid a : Nat) (h : cancelled_at s a) :
    cancelled_at (cancel_task s tid) a := by
  refine ⟨h.1, ?_⟩
  intro u hu hta
  obtain ⟨v, hv, rfl⟩ := List.mem_map.1 hu
  by_cases hvt : (v.tid == tid) = true
  · rw [if_pos hvt]
  · rw [if_neg hvt] at hta ⊢
    exact h.2 v hv hta

/-- One scheduler step preserves "task `a` is cancelled" and appends only
events that, when issued by task `a`, are restoration events. -/
lemma step_task_preserves (s : Sys) (tid a : Nat) (h : cancelled_at s a) :
    cancelled_at (step_task s tid) a ∧
    ∃ l, (step_task s tid).trace = s.trace ++ l ∧
      ∀ e ∈ l, e.origin = some a → e.phase ≠ Phase.body := by
  rw [step_task]
  cases hf : s.tasks.find? fun t => t.tid == tid with
  | none => exact ⟨h, [], by simp, by simp⟩
  | some t =>
    have htmem : t ∈ s.tasks := List.mem_of_find?_eq_some hf
    dsimp only
    by_cases hd : t.done
    · rw [if_pos hd]
      exact ⟨h, [], by simp, by simp⟩
    · rw [if_neg hd]
      constructor
      · refine ⟨h.1, ?_⟩
        intro u hu hta
        obtain ⟨v, hv, rfl⟩ := List.mem_map.1 hu
        by_cases hvt : (v.tid == tid) = true
        · rw [if_pos hvt] at hta ⊢
          rw [task_step_cancelled]
          rw [task_step_tid] at hta
          exact h.2 t htmem hta
        · rw [if_neg hvt] at hta ⊢
          exact h.2 v hv hta
      · refine ⟨(task_step t s.mgr.original_state).2.1.toList, rfl, ?_⟩
        intro e he horig
        rw [Option.mem_toList, Option.mem_def] at he
        have horigt := task_step_origin t s.mgr.original_state e he
        have hta : t.tid = a := by
          rw [horigt] at horig
          exact Option.some.inj horig
        have hc : t.cancelled = true := h.2 t htmem hta
        rw [task_step_cancelled_emit t s.mgr.original_state e hc he]
        decide

/-- `trigger_payment_celebration` preserves "task `a` is cancelled" — it only
sets further cancellation flags and creates a task with a fresh id — and
appends nothing to the trace. -/
lemma trigger_preserves (s : Sys) (amount : ℚ) (snap : Option SavedState)
    (ds : List String) (a : Nat) (h : cancelled_at s a) :
    cancelled_at (trigger_payment_celebration s amount snap ds) a ∧
    (trigger_payment_celebration s amount snap ds).trace = s.trace := by
  simp only [trigger_payment_celebration, trigger_program, List.foldl,
    exec_trigger_step]
  cases hit : s.mgr.interrupt_task with
  | none =>
    refine ⟨⟨Nat.lt_succ_of_lt h.1, ?_⟩, rfl⟩
    intro u hu hta
    rcases List.mem_append.1 hu with hu1 | hu2
    · exact h.2 u hu1 hta
    · rw [List.mem_singleton.1 hu2] at hta
      exact absurd hta (by simpa using Nat.ne_of_gt h.1)
  | some tid =>
    have h2 := cancel_task_preserves { s with
        mgr := { s.mgr with original_state := snap } } tid a ⟨h.1, h.2⟩
    refine ⟨⟨Nat.lt_succ_of_lt h2.1, ?_⟩, rfl⟩
    intro u hu hta
    rcases List.mem_append.1 hu with hu1 | hu2
    · exact h2.2 u hu1 hta
    · rw [List.mem_singleton.1 hu2] at hta
      exact absurd hta (by simpa using Nat.ne_of_gt h2.1)

/-- `stop_current_interrupt` preserves "task `a` is cancelled" and appends
only events without a task origin (its own inline restoration commands). -/
lemma stop_preserves (s : Sys) (a : Nat) (h : cancelled_at s a) :
    cancelled_at (stop_current_interrupt s).2 a ∧
    ∃ l, (stop_current_interrupt s).2.trace = s.trace ++ l ∧
      ∀ e ∈ l, e.origin = some a → e.phase ≠ Phase.body := by
  rw [stop_current_interrupt]
  cases hit : s.mgr.interrupt_task with
  | none => exact ⟨h, [], by simp, by simp⟩
  | some tid =>
    have h2 := cancel_task_preserves s tid a h
    refine ⟨⟨h2.1, h2.2⟩, (restore_commands s.mgr.original_state).map
      (fun i => ⟨none, Phase.restore, i⟩), rfl, ?_⟩
    intro e he horig
    obtain ⟨i, _, rfl⟩ := List.mem_map.1 he
    exact absurd horig (by simp)

/-- Every single action preserves "task `a` is cancelled" and appends only
events that, when issued by task `a`, are restoration events. -/
lemma exec_act_preserves (s : Sys) (act : Act) (a : Nat) (h : cancelled_at s a) :
    cancelled_at (exec_act s act) a ∧
    ∃ l, (exec_act s act).trace = s.trace ++ l ∧
      ∀ e ∈ l, e.origin = some a → e.phase ≠ Phase.body := by
  cases act with
  | step tid => exact step_task_preserves s tid a h
  | trigger amount snap ds =>
    have h2 := trigger_preserves s amount snap ds a h
    exact ⟨h2.1, [], by simp [exec_act, h2.2], by simp⟩
  | stop => exact stop_preserves s a h

/-- C1, amended.  Cooperative cancellation is effective on the celebration
body: once a task is cancelled (as `trigger(B)` does to the in-flight task A
before starting B), no schedule of further scheduler steps, triggers or stops
makes that task emit another celebration-body instruction — everything it
still emits is restoration.  (Per `last_trigger_wins_cex`, those restoration
device commands can still interleave with B's sequence, which is why the
claim's stronger "no further device commands from A" fails.) -/
theorem cancelled_task_emits_no_body_steps :
    ∀ (s : Sys) (acts : List Act) (a : Nat), cancelled_at s a →
      ∃ l, (run s acts).trace = s.trace ++ l ∧
        ∀ e ∈ l, e.origin = some a → e.phase ≠ Phase.body := by
  intro s acts
  induction acts generalizing s with
  | nil => exact fun a h => ⟨[], by simp [run], by simp⟩
  | cons act rest ih =>
    intro a h
    obtain ⟨hpres, l0, hl0, hsafe0⟩ := exec_act_preserves s act a h
    obtain ⟨l1, hl1, hsafe1⟩ := ih (exec_act s act) a hpres
    refine ⟨l0 ++ l1, ?_, ?_⟩
    · rw [run, hl1, hl0, List.append_assoc]
    · intro e he
      rcases List.mem_append.1 he with h1 | h2
      · exact hsafe0 e h1
      · exact hsafe1 e h2

/-- Witness for `cancelled_task_emits_no_body_steps`: after triggering a $5
celebration and cancelling its task (id 0), two further scheduler steps emit
no body event of task 0. -/
theorem cancelled_task_emits_no_body_steps_witness :
    ∃ l, (run (cancel_task (trigger_payment_celebration Sys.init 5 none
        ["d1"]) 0) [Act.step 0, Act.step 0]).trace =
      (cancel_task (trigger_payment_celebration Sys.init 5 none
        ["d1"]) 0).trace ++ l ∧
      ∀ e ∈ l, e.origin = some 0 → e.phase ≠ Phase.body :=
  cancelled_task_emits_no_body_steps
    (cancel_task (trigger_payment_celebration Sys.init 5 none ["d1"]) 0)
    [Act.step 0, Act.step 0] 0 ⟨by decide, by decide⟩

/-- Driving a sole, uncancelled celebration task (id 0) of body `prog` for
`prog.length + 2` resumptions when no snapshot was saved
(`original_state = None`): each body instruction is emitted in order, the
restoration phase is entered but `_restore_original_state` issues nothing,
and the `finally` clause clears the session record. -/
lemma drive_runs_body (prog : List Instr) (intr : Option Interrupt)
    (itid : Option Nat) (trace : List Ev) (nid : Nat) :
    drive ⟨⟨intr, none, itid⟩, [⟨0, prog, none, true, false, false⟩],
        trace, nid⟩ 0 (prog.length + 2) =
      ⟨⟨none, none, itid⟩, [⟨0, [], some [], true, false, true⟩],
        trace ++ prog.map (fun i => ⟨some 0, Phase.body, i⟩), nid⟩ := by
  induction prog generalizing trace with
  | nil =>
    show drive _ 0 2 = _
    simp [drive, step_task, task_step, restore_commands]
  | cons i rest ih =>
    show drive _ 0 (rest.length + 1 + 2) = _
    have hstep : step_task ⟨⟨intr, none, itid⟩,
        [⟨0, i :: rest, none, true, false, false⟩], trace, nid⟩ 0 =
      ⟨⟨intr, none, itid⟩, [⟨0, rest, none, true, false, false⟩],
        trace ++ [⟨some 0, Phase.body, i⟩], nid⟩ := by
      simp [step_task, task_step]
    calc drive ⟨⟨intr, none, itid⟩,
          [⟨0, i :: rest, none, true, false, false⟩], trace, nid⟩ 0
          (rest.length + 1 + 2)
        = drive ⟨⟨intr, none, itid⟩,
            [⟨0, rest, none, true, false, false⟩],
            trace ++ [⟨some 0, Phase.body, i⟩], nid⟩ 0 (rest.length + 2) := by
          rw [show rest.length + 1 + 2 = (rest.length + 2) + 1 by omega]
          rw [drive, hstep]
      _ = ⟨⟨none, none, itid⟩, [⟨0, [], some [], true, false, true⟩],
            trace ++ (i :: rest).map (fun j => ⟨some 0, Phase.body, j⟩),
            nid⟩ := by
          rw [ih]
          simp

/-- C8.  A failed state snapshot is non-fatal: when `_save_current_state`
fails (the trigger proceeds with `original_state = None` — the method catches
the exception instead of raising to the caller, and the trigger still returns
its `celebration_started` result), the celebration task still runs its whole
body to completion, the restoration step issues no device command at all
(`_restore_original_state` returns immediately without a saved state), and
afterwards the session record is cleared, so `get_current_interrupt` reports
no active session. -/
theorem snapshot_failure_nonfatal :
    ∀ (amount : ℚ) (device_ids : List String), device_ids ≠ [] →
      (trigger_payment_celebration Sys.init amount none
          device_ids).mgr.original_state = none ∧
      drive (trigger_payment_celebration Sys.init amount none device_ids) 0
          ((run_celebration_program (get_celebration_pattern amount)
            device_ids).length + 2) =
        ⟨⟨none, none, some 0⟩, [⟨0, [], some [], true, false, true⟩],
          (run_celebration_program (get_celebration_pattern amount)
            device_ids).map (fun i => ⟨some 0, Phase.body, i⟩), 1⟩ ∧
      get_current_interrupt
        (drive (trigger_payment_celebration Sys.init amount none device_ids) 0
          ((run_celebration_program (get_celebration_pattern amount)
            device_ids).length + 2)) = none ∧
      ∀ e ∈ (drive (trigger_payment_celebration Sys.init amount none
            device_ids) 0
          ((run_celebration_program (get_celebration_pattern amount)
            device_ids).length + 2)).trace, e.phase = Phase.body := by
  intro amount device_ids hne
  have hie : device_ids.isEmpty = false := by
    cases device_ids with
    | nil => exact absurd rfl hne
    | cons d ds => rfl
  have htrig : trigger_payment_celebration Sys.init amount none device_ids =
      ⟨⟨some ⟨amount, get_celebration_pattern amount⟩, none, some 0⟩,
        [⟨0, run_celebration_program (get_celebration_pattern amount)
            device_ids, none, true, false, false⟩], [], 1⟩ := by
    simp only [trigger_payment_celebration, trigger_program, List.foldl,
      exec_trigger_step, Sys.init, hie]
    rfl
  rw [htrig]
  have hdrive := drive_runs_body
    (run_celebration_program (get_celebration_pattern amount) device_ids)
    (some ⟨amount, get_celebration_pattern amount⟩) (some 0) [] 1
  rw [hdrive]
  refine ⟨rfl, by simp, rfl, ?_⟩
  intro e he
  simp only [List.nil_append] at he
  obtain ⟨i, _, rfl⟩ := List.mem_map.1 he
  rfl

/-- Witness for `snapshot_failure_nonfatal`: a $5 trigger with one device and
no snapshot. -/
theorem snapshot_failure_nonfatal_witness :
    (trigger_payment_celebration Sys.init 5 none
        ["d1"]).mgr.original_state = none ∧
    drive (trigger_payment_celebration Sys.init 5 none ["d1"]) 0
        ((run_celebration_program (get_celebration_pattern 5)
          ["d1"]).length + 2) =
      ⟨⟨none, none, some 0⟩, [⟨0, [], some [], true, false, true⟩],
        (run_celebration_program (get_celebration_pattern 5)
          ["d1"]).map (fun i => ⟨some 0, Phase.body, i⟩), 1⟩ ∧
    get_current_interrupt
      (drive (trigger_payment_celebration Sys.init 5 none ["d1"]) 0
        ((run_celebration_program (get_celebration_pattern 5)
          ["d1"]).length + 2)) = none ∧
    ∀ e ∈ (drive (trigger_payment_celebration Sys.init 5 none ["d1"]) 0
        ((run_celebration_program (get_celebration_pattern 5)
          ["d1"]).length + 2)).trace, e.phase = Phase.body :=
  snapshot_failure_nonfatal 5 ["d1"] (by decide)
